import Mathlib

/-!
Verification development for the portfolio 3D visualization core:
the hierarchical navigation state machine (navigationStore), the particle
store (particleStore), the formation calculators (galaxy, globe, nebula,
and the cross-formation transitions) and the geographic projection module
(Van der Grinten IV).

Discrete state (navigation and stores) is embedded computably over `ℚ`,
`ℤ`, `String` and lists.  Floating-point geometry is embedded over `ℝ`
in the usual way (JS numbers read as real numbers, `Math.sin` as
`Real.sin`, and so on).  JS `Map` objects are embedded by their
observable behaviour (lookup function plus insertion-ordered key list).
-/

set_option autoImplicit false

namespace PortfolioViz

open Real

/-! ## Navigation data model (types/data.ts, types/navigation.ts) -/

/-- `DataNode` from `types/data.ts`: a hierarchy node.  Only the fields
the navigation store reads are carried (`id`, `value`, `children`);
`children` is optional exactly as in the source (`children?: DataNode[]`). -/
inductive DataNode where
  | mk (id : String) (value : ℚ) (children : Option (List DataNode)) : DataNode
deriving Repr

def DataNode.id : DataNode → String
  | .mk i _ _ => i

def DataNode.value : DataNode → ℚ
  | .mk _ v _ => v

def DataNode.children : DataNode → Option (List DataNode)
  | .mk _ _ c => c

/-- JS truthiness test `selectedNode.children && selectedNode.children.length !== 0`
packaged: `none` and `some []` are both "no children to drill into". -/
def hasChildren : Option (List DataNode) → Bool
  | none => false
  | some l => !l.isEmpty

/-- `AnimationPhase` from `types/navigation.ts`. -/
inductive AnimationPhase where
  | idle | selecting | moving | splitting | collapsing
deriving DecidableEq, Repr

/-- `ViewMode` from `types/navigation.ts`. -/
inductive ViewMode where
  | value | contribution
deriving DecidableEq, Repr

/-- One breadcrumb entry `{ node, level }` of `selectionPath`. -/
structure PathSelection where
  node : DataNode
  level : ℕ
deriving Repr

/-- `NavigationState` (navigationStore): the state owned by the zustand
navigation store.  Numeric JS fields are `ℚ` (spacing, carousel offset)
or `ℤ` (focused index); `currentLevel` is a natural number (it is only
ever 0, incremented by one, or set to a guarded non-negative target). -/
structure NavState where
  rootNodes : List DataNode
  currentLevel : ℕ
  selectionPath : List PathSelection
  currentNodes : List DataNode
  animationPhase : AnimationPhase
  animatingNodeId : Option String
  hoveredNodeId : Option String
  viewMode : ViewMode
  explodedInstrumentId : Option String
  contributionSpacing : ℚ
  selectedContributionId : Option String
  focusedNodeIndex : ℤ
  carouselOffset : ℚ
deriving Repr

/-- `initialState` of the navigation store. -/
def navInitial : NavState where
  rootNodes := []
  currentLevel := 0
  selectionPath := []
  currentNodes := []
  animationPhase := .idle
  animatingNodeId := none
  hoveredNodeId := none
  viewMode := .value
  explodedInstrumentId := none
  contributionSpacing := 0.3
  selectedContributionId := none
  focusedNodeIndex := 0
  carouselOffset := 0

/-- JS `Math.round`: round half toward positive infinity. -/
def jround (q : ℚ) : ℤ := ⌊q + 1 / 2⌋

/-- `state.currentNodes[i]?.id || null`: an out-of-range index, or an
empty-string id (falsy in JS), yields `null`. -/
def idOrNull (nodes : List DataNode) (i : ℤ) : Option String :=
  if 0 ≤ i then
    match nodes.get? i.toNat with
    | some n => if n.id = "" then none else some n.id
    | none => none
  else none

/-- The sibling set determined by a breadcrumb path: the children of the
last entry (`parentNode?.children ?? state.rootNodes`), or the root list
when the path is empty. -/
def nodesAfter (roots : List DataNode) (path : List PathSelection) : List DataNode :=
  match path.getLast? with
  | some e => (e.node.children).getD roots
  | none => roots

/-! ## Navigation store operations (navigationStore) -/

/-- `initialize(rootNodes)` (the store action; renamed `initNav` here). -/
def initNav (s : NavState) (roots : List DataNode) : NavState :=
  { s with rootNodes := roots, currentNodes := roots, currentLevel := 0,
           selectionPath := [], animationPhase := .idle, animatingNodeId := none }

/-- `selectNode(nodeId)`: no-op while animating or for an unknown id;
a leaf only hovers; otherwise enters the `selecting` phase. -/
def selectNode (s : NavState) (nodeId : String) : NavState :=
  if s.animationPhase ≠ .idle then s
  else
    match s.currentNodes.find? (fun n => n.id == nodeId) with
    | none => s
    | some n =>
      if !hasChildren n.children then
        { s with hoveredNodeId := some nodeId }
      else
        { s with animationPhase := .selecting, animatingNodeId := some nodeId }

/-- The component timer (`setTimeout`, 200 ms) that advances the phase
from `selecting` to `moving`. -/
def timerToMoving (s : NavState) : NavState :=
  if s.animationPhase = .selecting then { s with animationPhase := .moving } else s

/-- The component timer advancing `moving → splitting` (300 ms). -/
def timerToSplitting (s : NavState) : NavState :=
  if s.animationPhase = .moving then { s with animationPhase := .splitting } else s

/-- `completeAnimation()`: from `splitting`, resolve the children of the animating node as the new sibling set and push the breadcrumb; from any other
phase, just return to `idle`.  When the animating node cannot be resolved
in `splitting`, the source falls through without any update. -/
def completeAnimation (s : NavState) : NavState :=
  if s.animationPhase = .splitting then
    match s.animatingNodeId with
    | none => s
    | some aid =>
      match s.currentNodes.find? (fun n => n.id == aid) with
      | none => s
      | some n =>
        match n.children with
        | none => s
        | some kids =>
          { s with currentLevel := s.currentLevel + 1,
                   selectionPath := s.selectionPath ++ [⟨n, s.currentLevel⟩],
                   currentNodes := kids,
                   animationPhase := .idle, animatingNodeId := none,
                   focusedNodeIndex := 0, hoveredNodeId := none,
                   carouselOffset := 0 }
  else
    { s with animationPhase := .idle, animatingNodeId := none }

/-- `goBack(toLevel?)` together with its 400 ms settlement (the
`setTimeout` body, which truncates the path, recomputes `currentNodes`
from the captured state and returns to `idle`).  The settlement reads the
state captured at call time, which is exactly the call-time state when no
other command runs in between, matching the operation sequences the
claim quantifies over. -/
def goBack (s : NavState) (toLevel : Option ℤ) : NavState :=
  if s.animationPhase ≠ .idle then s
  else if s.currentLevel = 0 then s
  else
    let targetLevel : ℤ := toLevel.getD ((s.currentLevel : ℤ) - 1)
    if targetLevel < 0 ∨ targetLevel ≥ (s.currentLevel : ℤ) then s
    else
      let newPath := s.selectionPath.take targetLevel.toNat
      let newCurrentNodes := nodesAfter s.rootNodes newPath
      { s with currentLevel := targetLevel.toNat,
               selectionPath := newPath,
               currentNodes := newCurrentNodes,
               animationPhase := .idle, animatingNodeId := none,
               focusedNodeIndex := 0, hoveredNodeId := none,
               carouselOffset := 0 }

/-- `reset()`: back to level 0 regardless of phase. -/
def resetNav (s : NavState) : NavState :=
  { s with currentLevel := 0, selectionPath := [], currentNodes := s.rootNodes,
           animationPhase := .idle, animatingNodeId := none, hoveredNodeId := none,
           explodedInstrumentId := none, selectedContributionId := none,
           contributionSpacing := 0.3, focusedNodeIndex := 0, carouselOffset := 0 }

/-- `explodeInstrument(instrumentId)`: rejected while not idle or when the
node has no children; otherwise records the exploded id and briefly enters
the `selecting` phase.  Note: `animatingNodeId` is NOT set here. -/
def explodeInstrument (s : NavState) (instrumentId : String) : NavState :=
  if s.animationPhase ≠ .idle then s
  else
    match s.currentNodes.find? (fun n => n.id == instrumentId) with
    | none => s
    | some n =>
      if !hasChildren n.children then s
      else { s with explodedInstrumentId := some instrumentId,
                    animationPhase := .selecting }

/-- The 300 ms timer scheduled by `explodeInstrument`: unconditionally
sets the phase back to `idle`. -/
def explodeTimer (s : NavState) : NavState :=
  { s with animationPhase := .idle }

/-- `collapseInstrument()`: clears the exploded sub-state unconditionally. -/
def collapseInstrument (s : NavState) : NavState :=
  { s with explodedInstrumentId := none, selectedContributionId := none,
           contributionSpacing := 0.3 }

/-- `setContributionSpacing(spacing)`: clamp into `[0.05, 0.4]`. -/
def setContributionSpacing (s : NavState) (spacing : ℚ) : NavState :=
  { s with contributionSpacing := max 0.05 (min 0.4 spacing) }

/-- `selectContribution(contributionId)`. -/
def selectContribution (s : NavState) (cid : Option String) : NavState :=
  { s with selectedContributionId := cid }

/-- `setViewMode(mode)`. -/
def setViewMode (s : NavState) (m : ViewMode) : NavState :=
  { s with viewMode := m }

/-- `setHoveredNode(nodeId)`. -/
def setHoveredNode (s : NavState) (nid : Option String) : NavState :=
  { s with hoveredNodeId := nid }

/-- `cycleNodes(direction)`: step the focused index cyclically.  The
focused index is a non-negative integer throughout, so JS `%` agrees with
`Int.emod` here. -/
def cycleNodes (s : NavState) (down : Bool) : NavState :=
  let count := s.currentNodes.length
  if count = 0 then s
  else
    let newIndex : ℤ :=
      if down then (s.focusedNodeIndex + 1) % (count : ℤ)
      else (s.focusedNodeIndex - 1 + (count : ℤ)) % (count : ℤ)
    { s with focusedNodeIndex := newIndex,
             hoveredNodeId := idOrNull s.currentNodes newIndex }

/-- `setFocusedNodeIndex(index)`: clamp into `[0, count-1]`. -/
def setFocusedNodeIndex (s : NavState) (index : ℤ) : NavState :=
  let count := s.currentNodes.length
  if count = 0 then s
  else
    let validIndex := max 0 (min ((count : ℤ) - 1) index)
    { s with focusedNodeIndex := validIndex,
             hoveredNodeId := idOrNull s.currentNodes validIndex }

/-- `setCarouselOffset(offset)`: clamp into `[0, count-1]`; sets only
`carouselOffset` (no focus/hover synchronization in the source). -/
def setCarouselOffset (s : NavState) (offset : ℚ) : NavState :=
  let count := s.currentNodes.length
  let clampedOffset := max 0 (min ((count : ℚ) - 1) offset)
  { s with carouselOffset := clampedOffset }

/-- `scrollCarousel(delta)`: clamp the shifted offset and synchronize the
rounded focused index and the hovered node id. -/
def scrollCarousel (s : NavState) (delta : ℚ) : NavState :=
  let count := s.currentNodes.length
  if count = 0 then s
  else
    let newOffset := s.carouselOffset + delta
    let clampedOffset := max 0 (min ((count : ℚ) - 1) newOffset)
    { s with carouselOffset := clampedOffset,
             focusedNodeIndex := jround clampedOffset,
             hoveredNodeId := idOrNull s.currentNodes (jround clampedOffset) }

/-! ## Command alphabet and executions

The inbound command interface of the navigation store (spec section 6)
plus the component-scheduled timer events. -/

inductive NavCmd where
  | initNav (roots : List DataNode)
  | selectNode (id : String)
  | timerToMoving
  | timerToSplitting
  | completeAnimation
  | goBack (toLevel : Option ℤ)
  | resetNav
  | explodeInstrument (id : String)
  | explodeTimer
  | collapseInstrument
  | setContributionSpacing (q : ℚ)
  | selectContribution (cid : Option String)
  | setViewMode (m : ViewMode)
  | setHoveredNode (nid : Option String)
  | cycleNodes (down : Bool)
  | setFocusedNodeIndex (i : ℤ)
  | setCarouselOffset (q : ℚ)
  | scrollCarousel (q : ℚ)

def navStep (s : NavState) : NavCmd → NavState
  | .initNav roots => initNav s roots
  | .selectNode i => selectNode s i
  | .timerToMoving => timerToMoving s
  | .timerToSplitting => timerToSplitting s
  | .completeAnimation => completeAnimation s
  | .goBack t => goBack s t
  | .resetNav => resetNav s
  | .explodeInstrument i => explodeInstrument s i
  | .explodeTimer => explodeTimer s
  | .collapseInstrument => collapseInstrument s
  | .setContributionSpacing q => setContributionSpacing s q
  | .selectContribution c => selectContribution s c
  | .setViewMode m => setViewMode s m
  | .setHoveredNode n => setHoveredNode s n
  | .cycleNodes d => cycleNodes s d
  | .setFocusedNodeIndex i => setFocusedNodeIndex s i
  | .setCarouselOffset q => setCarouselOffset s q
  | .scrollCarousel q => scrollCarousel s q

def runNav (s : NavState) (cmds : List NavCmd) : NavState :=
  cmds.foldl navStep s

/-! ## The navigation consistency invariant (claim C1) -/

/-- `currentNodes` agrees with the breadcrumb: the children of the last
path entry, or the root list when the path is empty. -/
def pathConsistent (s : NavState) : Prop :=
  (s.selectionPath.getLast? = none → s.currentNodes = s.rootNodes) ∧
  (∀ e, s.selectionPath.getLast? = some e → e.node.children = some s.currentNodes)

/-- The inductive navigation invariant: breadcrumb length equals the
current level, `currentNodes` agrees with the breadcrumb, and every
breadcrumb entry was pushed with a materialized child list. -/
def NavInv (s : NavState) : Prop :=
  s.selectionPath.length = s.currentLevel ∧ pathConsistent s ∧
    ∀ e ∈ s.selectionPath, (e.node.children).isSome

def c1DemoChild : DataNode := .mk "node-2" 2 none

def c1DemoRoot : DataNode := .mk "node-1" 3 (some [c1DemoChild])

def c1DemoCmds : List NavCmd :=
  [.initNav [c1DemoRoot], .selectNode "node-1", .timerToMoving, .timerToSplitting,
   .completeAnimation]

/-! ## Single in-flight transition (claim C2)

The source `explodeInstrument` enters the `selecting` phase without
setting `animatingNodeId`, so "not idle implies an animating node is set"
fails on the code as soon as an instrument is exploded; it does hold for
all executions that never issue `explodeInstrument`.  The rejection half
(node-selection commands are no-ops while not idle) holds for every
state. -/

/-- Marks the one command that breaks the `animatingNodeId` invariant. -/
def isExplodeCmd : NavCmd → Bool
  | .explodeInstrument _ => true
  | _ => false

/-- Not idle implies an animating node id is recorded. -/
def AnimInv (s : NavState) : Prop :=
  s.animationPhase ≠ .idle → s.animatingNodeId ≠ none

def c2Root : DataNode := .mk "node-1" 3 (some [.mk "node-2" 2 none])

def c2ExplodeCmds : List NavCmd := [.initNav [c2Root], .explodeInstrument "node-1"]

def c2NoExplodeCmds : List NavCmd := [.initNav [c2Root], .selectNode "node-1"]

def c2BusyState : NavState := { navInitial with animationPhase := .selecting }

/-! ## Particle store formation state (particleStore, types/particle.ts) -/

/-- `AssetClassType` from `types/particle.ts`. -/
inductive AssetClassType where
  | equities | fixedIncome | alternatives
deriving DecidableEq, Repr

/-- `GeographicRegion` from `types/particle.ts`. -/
inductive GeographicRegion where
  | northAmerica | europe | asia | emergingMarkets | global | unknown
deriving DecidableEq, Repr

/-- `FormationType` from `types/particle.ts`. -/
inductive FormationType where
  | galaxy | globe | nebula | exploded
deriving DecidableEq, Repr

/-- `FormationState` from `types/particle.ts` (owned by the particle
store). -/
structure FormationState where
  currentFormation : FormationType
  targetFormation : FormationType
  transitionProgress : ℚ
  isTransitioning : Bool
  selectedGalaxy : Option AssetClassType
  selectedRegion : Option GeographicRegion
  isUnfolding : Bool
  unfoldProgress : ℚ
  selectedParticleId : Option String
deriving Repr

/-- `initialFormationState` from the particle store. -/
def initialFormationState : FormationState where
  currentFormation := .galaxy
  targetFormation := .galaxy
  transitionProgress := 0
  isTransitioning := false
  selectedGalaxy := none
  selectedRegion := none
  isUnfolding := false
  unfoldProgress := 0
  selectedParticleId := none

/-- `updateTransitionProgress(progress)` from the particle store: clamp
into `[0, 1]`. -/
def updateTransitionProgress (fs : FormationState) (progress : ℚ) : FormationState :=
  { fs with transitionProgress := max 0 (min 1 progress) }

/-- `updateUnfoldProgress(progress)` from the particle store. -/
def updateUnfoldProgress (fs : FormationState) (progress : ℚ) : FormationState :=
  { fs with unfoldProgress := max 0 (min 1 progress) }

/-! ## Carousel and clamp behaviour (claims C8 and C9) -/

def c8DemoState : NavState :=
  { navInitial with
      currentNodes := [.mk "node-1" 1 none, .mk "node-2" 2 none, .mk "node-3" 3 none] }

/-! ## Geographic projection module (projections/VanDerGrinten4.ts)

JS numbers are modelled as real numbers; `Math.sin`, `Math.cos`,
`Math.asin`, `Math.sqrt`, `Math.exp` as their `Real` counterparts. -/

noncomputable section

open Real

/-- A 3D position `[x, y, z]`. -/
abbrev Vec3 : Type := ℝ × ℝ × ℝ

/-- Componentwise vector addition (the three `flatPos[i] += center[i]`
statements). -/
def vecAdd (a b : Vec3) : Vec3 := (a.1 + b.1, a.2.1 + b.2.1, a.2.2 + b.2.2)

/-- `lerp(a, b, t) = a + (b - a) * t`. -/
def lerpR (a b t : ℝ) : ℝ := a + (b - a) * t

/-- The `EPSILON = 1e-10` singularity guard. -/
def EPSILON : ℝ := 1e-10

/-- `LatLong` from `types/particle.ts`. -/
structure LatLong where
  lat : ℝ
  long : ℝ

open Classical in
/-- `vanDerGrinten4(lat, long)`: the compromise projection with its pole,
equator and central-meridian special cases, the `|D| < EPSILON` guard,
the discriminant fallback, the sign restoration and the final clamp into
`[-π, π] × [-π/2, π/2]`.  The source assigns a preliminary `x`/`y` from
the first formula block and then unconditionally overwrites both in the
discriminant branches, so the preliminary values are dead and omitted. -/
def vanDerGrinten4 (lat long : ℝ) : ℝ × ℝ :=
  let phi := lat * π / 180
  let lambda := long * π / 180
  if |(|phi| - π / 2)| < EPSILON then (0, if phi > 0 then π / 2 else -(π / 2))
  else if |phi| < EPSILON then (lambda, 0)
  else if |lambda| < EPSILON then (0, phi)
  else
    let absLambda := |lambda|
    let theta := arcsin |2 * phi / π|
    let sinTheta := sin theta
    let cosTheta := cos theta
    let sinThetaSq := sinTheta * sinTheta
    let cosThetaSq := cosTheta * cosTheta
    let B := absLambda / π
    let BSq := B * B
    let D := 1 + BSq * (1 - sinThetaSq)
    if |D| < EPSILON then
      (if lambda > 0 then π else -π, if phi > 0 then π / 2 else -(π / 2))
    else
      let A := 0.5 * absLambda / π
      let G := cosThetaSq / (sinTheta + cosThetaSq - 1 + EPSILON)
      let P := G * (2 / sinTheta - 1)
      let Q := A * A + G
      let P2 := P * P
      let Q2 := Q * Q
      let A2 := A * A
      let discriminant := P2 + A2 - Q2
      let xy : ℝ × ℝ :=
        if discriminant < 0 then (absLambda, sinTheta * (π / 2))
        else
          let sqrtDisc := Real.sqrt discriminant
          (π * (A * (G - P2) + sqrtDisc * P) / (P2 + A2 + EPSILON),
           π * (P * (G - A2) - A * sqrtDisc) / (P2 + A2 + EPSILON))
      let x := if lambda < 0 then -xy.1 else xy.1
      let y := if phi < 0 then -xy.2 else xy.2
      (max (-π) (min π x), max (-(π / 2)) (min (π / 2) y))

/-- `latLongToSphere(lat, long, radius)`. -/
def latLongToSphere (lat long radius : ℝ) : Vec3 :=
  let phi := (90 - lat) * (π / 180)
  let theta := (long + 180) * (π / 180)
  (-radius * sin phi * cos theta, radius * cos phi, radius * sin phi * sin theta)

/-- `projectionTo3D(projX, projY, yLevel, scale)`: X maps to X, projected
Y maps to -Z, and the map sits at the constant height `yLevel`. -/
def projectionTo3D (projX projY yLevel scale : ℝ) : Vec3 :=
  (projX * scale, yLevel, -projY * scale)

/-- `smoothStep(t)`: clamp to `[0, 1]`, then the cubic Hermite
`t² (3 - 2t)`. -/
def smoothStep (t : ℝ) : ℝ :=
  let t2 := max 0 (min 1 t)
  t2 * t2 * (3 - 2 * t2)

/-- The `projectionConfig` argument of `interpolateSphereToProjection`. -/
structure ProjectionConfig where
  yLevel : ℝ
  scale : ℝ
  center : Vec3

/-- `interpolateSphereToProjection(latLong, progress, sphereRadius,
projectionConfig)`: compute the sphere point and the centered flat
projection point, smooth-step the progress, and interpolate. -/
def interpolateSphereToProjection (ll : LatLong) (progress sphereRadius : ℝ)
    (cfg : ProjectionConfig) : Vec3 :=
  let spherePos := latLongToSphere ll.lat ll.long sphereRadius
  let pr := vanDerGrinten4 ll.lat ll.long
  let flatPos := vecAdd (projectionTo3D pr.1 pr.2 cfg.yLevel cfg.scale) cfg.center
  let t := smoothStep progress
  (lerpR spherePos.1 flatPos.1 t, lerpR spherePos.2.1 flatPos.2.1 t,
   lerpR spherePos.2.2 flatPos.2.2 t)

end

/-! ## Sphere-to-projection round trip (claim C4) -/

/-! ## Projection boundary safety (claim C5) -/

/-! ## Formation engine data model (types/particle.ts)

A JS `Map<string, [number, number, number]>` is embedded by its
observable behaviour: the lookup function (`get`) and the
insertion-ordered key list (`keys`); `set` overwrites the value for an
existing key and appends a fresh key. -/

structure JsMap where
  get : String → Option Vec3
  keys : List String

def JsMap.empty : JsMap := ⟨fun _ => none, []⟩

noncomputable def JsMap.set (m : JsMap) (k : String) (v : Vec3) : JsMap :=
  ⟨fun q => if q = k then some v else m.get q,
   if k ∈ m.keys then m.keys else m.keys ++ [k]⟩

/-- `Particle` from `types/particle.ts`, restricted to the fields the
formation calculators read (`id`, `value`, `weight`, `assetClass`,
`region`, `latLong`); the rendering fields (label, color, size, glow,
current/target position, velocity, node back-reference) are never read
by the calculators.  `latLong` is kept optional to mirror the defensive `particle.latLong || REGION_COORDINATES[particle.region]`
fallback. -/
structure Particle where
  id : String
  value : ℝ
  weight : ℝ
  assetClass : AssetClassType
  region : GeographicRegion
  latLong : Option LatLong

/-- Ids of a particle list, in order. -/
def ids (ps : List Particle) : List String := ps.map (fun p => p.id)

/-- JS `s.charCodeAt(i)`, used to seed deterministic jitter.  For the
store-generated ids (`particle-…`, length at least 9) the accessed
indexes 5/6/7 are always in range; the out-of-range JS result (`NaN`)
is modelled as 0. -/
def charCodeAt (s : String) (i : ℕ) : ℝ :=
  match s.data.get? i with
  | some c => (c.toNat : ℝ)
  | none => 0

/-- `GalaxyConfig` from `types/particle.ts`. -/
structure GalaxyConfig where
  center : Vec3
  radius : ℝ
  armCount : ℕ
  armSpread : ℝ
  rotationSpeed : ℝ

/-- `GALAXY_CONFIGS` from `types/particle.ts`. -/
noncomputable def GALAXY_CONFIGS : AssetClassType → GalaxyConfig
  | .equities => ⟨(-3, 1.5, 0), 2.5, 3, 0.8, 0.05⟩
  | .fixedIncome => ⟨(3, 1.5, 0), 1.8, 2, 0.6, 0.03⟩
  | .alternatives => ⟨(0, 0.5, -2), 1.2, 2, 0.5, 0.04⟩

/-- `GlobeConfig` from `types/particle.ts`. -/
structure GlobeConfig where
  center : Vec3
  radius : ℝ
  rotationSpeed : ℝ

/-- `GLOBE_CONFIG` from `types/particle.ts`. -/
noncomputable def GLOBE_CONFIG : GlobeConfig := ⟨(0, 1.5, 0), 2.5, 0.01⟩

/-- The `yAxisMetric` selector of `NebulaConfig`. -/
inductive YAxisMetric where
  | value | weight
deriving DecidableEq, Repr

/-- `NebulaConfig` from `types/particle.ts`. -/
structure NebulaConfig where
  center : Vec3
  spread : Vec3
  yAxisMetric : YAxisMetric

/-- `NEBULA_CONFIG` from `types/particle.ts`. -/
noncomputable def NEBULA_CONFIG : NebulaConfig := ⟨(0, 1.5, 0), (4, 3, 2), .value⟩

/-- `REGION_COORDINATES` from `types/particle.ts`. -/
noncomputable def REGION_COORDINATES : GeographicRegion → LatLong
  | .northAmerica => ⟨40, -100⟩
  | .europe => ⟨50, 10⟩
  | .asia => ⟨35, 120⟩
  | .emergingMarkets => ⟨-15, 30⟩
  | .global => ⟨0, 0⟩
  | .unknown => ⟨0, 0⟩

/-! ## Formation calculators -/

noncomputable section

open Classical

/-- `positions.set(particle.id, pos(particle, index))` applied over a
`forEach((particle, index) => …)` loop, starting at index `i`. -/
def forEachSet (m : JsMap) (i : ℕ) (ps : List Particle) (pos : ℕ → Particle → Vec3) :
    JsMap :=
  match ps with
  | [] => m
  | p :: rest => forEachSet (m.set p.id (pos i p)) (i + 1) rest pos

/-- `TWO_PI` from `GalaxyFormation.ts`. -/
def TWO_PI : ℝ := π * 2

/-- `calculateGalaxyPosition(index, totalParticles, config, time)`: the
multi-arm logarithmic spiral law with index-seeded jitter and
time-proportional rotation.  `armCount` is at least 2 in every shipped
config, so the JS integer `index % armCount` and
`Math.ceil(totalParticles / armCount)` are the natural-number `%` and
ceiling division used here. -/
def calculateGalaxyPosition (index totalParticles : ℕ) (config : GalaxyConfig)
    (time : ℝ) : Vec3 :=
  let armIndex := index % config.armCount
  let particleInArm := index / config.armCount
  let totalInArm := (totalParticles + config.armCount - 1) / config.armCount
  let armProgress : ℝ :=
    if 1 < totalInArm then (particleInArm : ℝ) / ((totalInArm : ℝ) - 1) else 0.5
  let a : ℝ := 0.3
  let b : ℝ := 0.3
  let baseAngle := ((armIndex : ℝ) / (config.armCount : ℝ)) * TWO_PI
  let spiralAngle := armProgress * TWO_PI * 1.5
  let angle := baseAngle + spiralAngle + time * config.rotationSpeed
  let spiralRadius := a * Real.exp (b * spiralAngle) * config.radius
  let distance := min spiralRadius config.radius
  let spreadFactor := config.armSpread * (0.5 + armProgress * 0.5)
  let randomAngleOffset := (Real.sin ((index : ℝ) * 12.9898 + 78.233) * 0.5) * spreadFactor
  let randomRadiusOffset :=
    (Real.cos ((index : ℝ) * 43.758 + 21.123) * 0.5) * spreadFactor * 0.3
  let finalAngle := angle + randomAngleOffset
  let finalDistance := distance * (1 + randomRadiusOffset)
  let x := config.center.1 + Real.cos finalAngle * finalDistance
  let z := config.center.2.2 + Real.sin finalAngle * finalDistance
  let heightVariation := 0.2 * (1 - armProgress) * Real.sin ((index : ℝ) * 1.414)
  let y := config.center.2.1 + heightVariation
  (x, y, z)

/-- `calculateGalaxyFormation(particles, time)`: group the particles by
asset class (the record literal iterates `equities`, `fixed-income`,
`alternatives` in insertion order; every `Particle.assetClass` is one of
these three keys, so the `if (grouped[p.assetClass])` guard always
passes), then place each group on its configured spiral. -/
def calculateGalaxyFormation (particles : List Particle) (time : ℝ) : JsMap :=
  let eq := particles.filter (fun p => decide (p.assetClass = .equities))
  let fi := particles.filter (fun p => decide (p.assetClass = .fixedIncome))
  let al := particles.filter (fun p => decide (p.assetClass = .alternatives))
  let m1 := forEachSet JsMap.empty 0 eq
    (fun i _ => calculateGalaxyPosition i eq.length (GALAXY_CONFIGS .equities) time)
  let m2 := forEachSet m1 0 fi
    (fun i _ => calculateGalaxyPosition i fi.length (GALAXY_CONFIGS .fixedIncome) time)
  forEachSet m2 0 al
    (fun i _ => calculateGalaxyPosition i al.length (GALAXY_CONFIGS .alternatives) time)

/-- `easeOutCubic(t) = 1 - (1-t)³` (GalaxyFormation.ts and
NebulaFormation.ts). -/
def easeOutCubic (t : ℝ) : ℝ := 1 - (1 - t) ^ (3 : ℕ)

/-- `easeOutQuart(t) = 1 - (1-t)⁴` (NebulaFormation.ts). -/
def easeOutQuart (t : ℝ) : ℝ := 1 - (1 - t) ^ (4 : ℕ)

/-- `easeInOutCubic(t)` (GlobeFormation.ts): `4t³` below ½, else
`1 - (-2t+2)³/2`. -/
def easeInOutCubic (t : ℝ) : ℝ :=
  if t < 0.5 then 4 * t * t * t else 1 - (-2 * t + 2) ^ (3 : ℕ) / 2

/-- The inner loop of `calculateExplosionToGalaxy`: skip particles with
no final position, otherwise lerp from the explosion center with the
spiral flourish. -/
def explosionToGalaxyAux (finalPositions : JsMap) (progress eased : ℝ)
    (explosionCenter : Vec3) (m : JsMap) : List Particle → JsMap
  | [] => m
  | p :: rest =>
    match finalPositions.get p.id with
    | some f =>
        let spiralAngle := progress * π * 4
        let spiralRadius := progress * 0.5
        let so : Vec3 :=
          (Real.cos (spiralAngle + charCodeAt p.id 5 * 0.1) * spiralRadius * (1 - progress),
           Real.sin (progress * π) * 0.5,
           Real.sin (spiralAngle + charCodeAt p.id 5 * 0.1) * spiralRadius * (1 - progress))
        explosionToGalaxyAux finalPositions progress eased explosionCenter
          (m.set p.id
            (lerpR explosionCenter.1 f.1 eased + so.1,
             lerpR explosionCenter.2.1 f.2.1 eased + so.2.1,
             lerpR explosionCenter.2.2 f.2.2 eased + so.2.2)) rest
    | none => explosionToGalaxyAux finalPositions progress eased explosionCenter m rest

/-- `calculateExplosionToGalaxy(particles, progress, time, explosionCenter)`. -/
def calculateExplosionToGalaxy (particles : List Particle) (progress time : ℝ)
    (explosionCenter : Vec3) : JsMap :=
  let finalPositions := calculateGalaxyFormation particles time
  let easedProgress := easeOutCubic progress
  explosionToGalaxyAux finalPositions progress easedProgress explosionCenter
    JsMap.empty particles

/-- `calculateGlobePosition(particle, time, config)`. -/
def calculateGlobePosition (p : Particle) (time : ℝ) (config : GlobeConfig) : Vec3 :=
  let ll := p.latLong.getD (REGION_COORDINATES p.region)
  let spherePos := latLongToSphere ll.lat ll.long config.radius
  let rotationAngle := time * config.rotationSpeed
  let rotatedX := spherePos.1 * Real.cos rotationAngle - spherePos.2.2 * Real.sin rotationAngle
  let rotatedZ := spherePos.1 * Real.sin rotationAngle + spherePos.2.2 * Real.cos rotationAngle
  (config.center.1 + rotatedX, config.center.2.1 + spherePos.2.1,
   config.center.2.2 + rotatedZ)

/-- `calculateGlobeFormation(particles, time, config)`. -/
def calculateGlobeFormation (particles : List Particle) (time : ℝ)
    (config : GlobeConfig) : JsMap :=
  forEachSet JsMap.empty 0 particles (fun _ p => calculateGlobePosition p time config)

/-- The inner loop of `calculateGalaxyToGlobe`: skip particles missing a
start or end position, otherwise lerp with the arc-height flourish. -/
def galaxyToGlobeAux (startM endM : JsMap) (progress eased : ℝ) (m : JsMap) :
    List Particle → JsMap
  | [] => m
  | p :: rest =>
    match startM.get p.id, endM.get p.id with
    | some s, some e =>
        let arcHeight := Real.sin (progress * π) * 2
        galaxyToGlobeAux startM endM progress eased
          (m.set p.id
            (lerpR s.1 e.1 eased, lerpR s.2.1 e.2.1 eased + arcHeight,
             lerpR s.2.2 e.2.2 eased)) rest
    | _, _ => galaxyToGlobeAux startM endM progress eased m rest

/-- `calculateGalaxyToGlobe(particles, galaxyPositions, progress, time)`. -/
def calculateGalaxyToGlobe (particles : List Particle) (galaxyPositions : JsMap)
    (progress time : ℝ) : JsMap :=
  let globePositions := calculateGlobeFormation particles time GLOBE_CONFIG
  let easedProgress := easeInOutCubic progress
  galaxyToGlobeAux galaxyPositions globePositions progress easedProgress
    JsMap.empty particles

/-- `normalizeValue(value, min, max)` (NebulaFormation.ts). -/
def normalizeValue (value vmin vmax : ℝ) : ℝ :=
  max 0 (min 1 ((value - vmin) / (vmax - vmin)))

/-- `calculateNebulaPosition(particle, index, totalParticles, config,
time)`.  The JS `(totalParticles - 1 || 1)` divisor replaces a zero
denominator by 1. -/
def calculateNebulaPosition (p : Particle) (index totalParticles : ℕ)
    (config : NebulaConfig) (time : ℝ) : Vec3 :=
  let metricValue := match config.yAxisMetric with
    | .value => p.value
    | .weight => p.weight
  let normalizedMetric := normalizeValue metricValue (-0.05) 0.20
  let yOffset := (normalizedMetric - 0.5) * config.spread.2.1 * 2
  let denom : ℝ :=
    if ((totalParticles : ℝ) - 1) = 0 then 1 else (totalParticles : ℝ) - 1
  let xBase := ((index : ℝ) / denom - 0.5) * config.spread.1 * 2
  let xJitter := Real.sin ((index : ℝ) * 2.4 + charCodeAt p.id 6 * 0.1) * config.spread.1 * 0.2
  let zBase := (Real.cos ((index : ℝ) * 1.7 + 0.3) * 0.5) * config.spread.2.2
  let zJitter := Real.cos ((index : ℝ) * 3.1 + charCodeAt p.id 7 * 0.1) * config.spread.2.2 * 0.3
  let floatX := Real.sin (time * 0.5 + (index : ℝ) * 0.3) * 0.05
  let floatY := Real.cos (time * 0.4 + (index : ℝ) * 0.5) * 0.08
  let floatZ := Real.sin (time * 0.3 + (index : ℝ) * 0.7) * 0.03
  (config.center.1 + xBase + xJitter + floatX,
   config.center.2.1 + yOffset + floatY,
   config.center.2.2 + zBase + zJitter + floatZ)

/-- `[...particles].sort((a, b) => b.value - a.value)`: sort by value,
descending. -/
def sortByValueDesc (ps : List Particle) : List Particle :=
  ps.mergeSort (fun a b => decide (b.value ≤ a.value))

/-- `calculateNebulaFormation(particles, config, time)`. -/
def calculateNebulaFormation (particles : List Particle) (config : NebulaConfig)
    (time : ℝ) : JsMap :=
  let sorted := sortByValueDesc particles
  forEachSet JsMap.empty 0 sorted
    (fun i p => calculateNebulaPosition p i sorted.length config time)

/-- `getRegionNebulaCenter(region)` (NebulaFormation.ts). -/
def getRegionNebulaCenter : Option GeographicRegion → Vec3
  | none => NEBULA_CONFIG.center
  | some .northAmerica => (-1, 1.5, 0)
  | some .europe => (0, 1.5, 0)
  | some .asia => (1, 1.5, 0)
  | some .emergingMarkets => (0, 1.5, 0.5)
  | some .global => (0, 1.5, 0)
  | some .unknown => (0, 1.5, 0)

/-- The inner loop of `calculateGlobeToNebula`.  `Math.random()` is
modelled by an explicit stream `rng : ℕ → ℝ` with a call counter: each
particle that has both a start and an end position consumes three draws
for its spread direction; skipped particles consume none. -/
def globeToNebulaAux (rng : ℕ → ℝ) (startM endM : JsMap) (progress eased : ℝ)
    (ctr : ℕ) (m : JsMap) : List Particle → JsMap
  | [] => m
  | p :: rest =>
    match startM.get p.id, endM.get p.id with
    | some s, some e =>
        let spreadFactor := Real.sin (progress * π) * 0.5
        let sd : Vec3 :=
          ((rng ctr - 0.5) * spreadFactor, (rng (ctr + 1) - 0.5) * spreadFactor,
           (rng (ctr + 2) - 0.5) * spreadFactor)
        globeToNebulaAux rng startM endM progress eased (ctr + 3)
          (m.set p.id
            (lerpR s.1 e.1 eased + sd.1, lerpR s.2.1 e.2.1 eased + sd.2.1,
             lerpR s.2.2 e.2.2 eased + sd.2.2)) rest
    | _, _ => globeToNebulaAux rng startM endM progress eased ctr m rest

/-- `calculateGlobeToNebula(particles, startPositions, progress,
selectedRegion, time)`, with the global `Math.random()` made explicit as
the `rng` stream. -/
def calculateGlobeToNebula (rng : ℕ → ℝ) (particles : List Particle)
    (startPositions : JsMap) (progress : ℝ) (selectedRegion : Option GeographicRegion)
    (time : ℝ) : JsMap :=
  let relevantParticles := match selectedRegion with
    | some r => particles.filter (fun p => decide (p.region = r))
    | none => particles
  let nebulaConfig : NebulaConfig :=
    { NEBULA_CONFIG with center := getRegionNebulaCenter selectedRegion }
  let nebulaPositions := calculateNebulaFormation relevantParticles nebulaConfig time
  let easedProgress := easeOutQuart progress
  globeToNebulaAux rng startPositions nebulaPositions progress easedProgress 0
    JsMap.empty relevantParticles

end

/-! ## Position-map fold lemmas -/

/-! ## Formation key sets (claim C10) -/

/-! ## Galaxy-to-globe transition endpoints (claim C6) -/

def c6Particle : Particle :=
  ⟨"particle-c", 1, 0.2, .equities, .northAmerica, some ⟨40, -100⟩⟩

noncomputable def c6Start : JsMap := JsMap.empty.set "particle-c" (1, 2, 3)

/-! ## Determinism of the formation calculators (claim C3)

`calculateGalaxyFormation`, `calculateGlobeFormation`,
`calculateNebulaFormation`, `calculateExplosionToGalaxy` and
`calculateGalaxyToGlobe` are embedded as plain functions of their listed
inputs — they contain no `Math.random()` call, so their determinism is
structural.  `calculateGlobeToNebula` does call `Math.random()` (three
draws per transitioning particle for the spread direction), which is why
it alone takes the explicit `rng` stream; the claim fails on it at
intermediate progress. -/

def rngZero : ℕ → ℝ := fun _ => 0

def rngOne : ℕ → ℝ := fun _ => 1

def c3Particle : Particle := ⟨"particle-a", 0, 0.1, .equities, .global, some ⟨0, 0⟩⟩

noncomputable def c3Start : JsMap := JsMap.empty.set "particle-a" (0, 0, 0)

/-! ## Transition easing (claim C7) -/

/-- Modelled from the spec ("transitions use a cubic or quartic ease-out
`1 - (1-t)^n` rather than linear `t`"): the galaxy→globe transition
pipeline with the claimed `1-(1-t)^n` ease-out in place of the easing the
source applies, for comparison against `calculateGalaxyToGlobe`. -/
noncomputable def specGalaxyToGlobeEaseOut (n : ℕ) (particles : List Particle)
    (galaxyPositions : JsMap) (progress time : ℝ) : JsMap :=
  let globePositions := calculateGlobeFormation particles time GLOBE_CONFIG
  let easedProgress := 1 - (1 - progress) ^ n
  galaxyToGlobeAux galaxyPositions globePositions progress easedProgress
    JsMap.empty particles

def c7Particle : Particle := ⟨"particle-b", 0, 0.1, .equities, .global, some ⟨90, 0⟩⟩

noncomputable def c7Start : JsMap := JsMap.empty.set "particle-b" (0, 0, 0)

/-! ## Lemmas and theorems -/

lemma getLast?_mem_self {α : Type} {l : List α} {a : α} (h : l.getLast? = some a) :
    a ∈ l := by
  obtain ⟨hne, hx⟩ := List.mem_getLast?_eq_getLast (Option.mem_def.mpr h)
  rw [hx]
  exact List.getLast_mem hne

lemma navInv_of_eq (s2 s : NavState) (h : NavInv s)
    (hp : s2.selectionPath = s.selectionPath) (hl : s2.currentLevel = s.currentLevel)
    (hc : s2.currentNodes = s.currentNodes) (hr : s2.rootNodes = s.rootNodes) :
    NavInv s2 := by
  unfold NavInv pathConsistent at h ⊢
  rw [hp, hl, hc, hr]
  exact h

lemma navStep_inv (s : NavState) (c : NavCmd) (h : NavInv s) : NavInv (navStep s c) := by
  cases c with
  | initNav roots =>
      refine ⟨rfl, ⟨fun _ => rfl, fun e he => ?_⟩, fun e he => ?_⟩ <;>
        simp [navStep, initNav] at he
  | selectNode i =>
      simp only [navStep]
      unfold selectNode
      split
      · exact h
      · split
        · exact h
        · split
          · exact navInv_of_eq _ _ h rfl rfl rfl rfl
          · exact navInv_of_eq _ _ h rfl rfl rfl rfl
  | timerToMoving =>
      simp only [navStep]
      unfold timerToMoving
      split
      · exact navInv_of_eq _ _ h rfl rfl rfl rfl
      · exact h
  | timerToSplitting =>
      simp only [navStep]
      unfold timerToSplitting
      split
      · exact navInv_of_eq _ _ h rfl rfl rfl rfl
      · exact h
  | completeAnimation =>
      simp only [navStep]
      unfold completeAnimation
      split
      · split
        · exact h
        · split
          · exact h
          · split
            · exact h
            · rename_i aid n hfind kids hkids
              refine ⟨by simp [h.1], ⟨?_, ?_⟩, ?_⟩
              · intro hnone
                rw [List.getLast?_concat] at hnone
                simp at hnone
              · intro e he
                rw [List.getLast?_concat] at he
                cases he
                exact hkids
              · intro e he
                rw [List.mem_append] at he
                rcases he with he | he
                · exact h.2.2 e he
                · simp at he
                  subst he
                  simp [hkids]
      · exact navInv_of_eq _ _ h rfl rfl rfl rfl
  | goBack t =>
      simp only [navStep, goBack]
      split
      · exact h
      · split
        · exact h
        · split
          · exact h
          · rename_i hlvl htgt
            push_neg at htgt
            have hlen : (t.getD ((s.currentLevel : ℤ) - 1)).toNat ≤ s.selectionPath.length := by
              rw [h.1]
              omega
            have htake : ∀ e ∈ s.selectionPath.take (t.getD ((s.currentLevel : ℤ) - 1)).toNat,
                (e.node.children).isSome :=
              fun e he => h.2.2 e (List.take_subset _ _ he)
            refine ⟨by simp [List.length_take]; omega, ⟨?_, ?_⟩, htake⟩
            · intro hnone
              show nodesAfter s.rootNodes _ = s.rootNodes
              unfold nodesAfter
              rw [hnone]
            · intro e he
              have hmem : e ∈ s.selectionPath.take (t.getD ((s.currentLevel : ℤ) - 1)).toNat :=
                getLast?_mem_self he
              obtain ⟨l, hl⟩ := Option.isSome_iff_exists.mp (htake e hmem)
              show e.node.children = some (nodesAfter s.rootNodes _)
              unfold nodesAfter
              rw [he]
              simp [hl]
  | resetNav =>
      refine ⟨rfl, ⟨fun _ => rfl, fun e he => ?_⟩, fun e he => ?_⟩ <;>
        simp [navStep, resetNav] at he
  | explodeInstrument i =>
      simp only [navStep]
      unfold explodeInstrument
      split
      · exact h
      · split
        · exact h
        · split
          · exact h
          · exact navInv_of_eq _ _ h rfl rfl rfl rfl
  | explodeTimer => exact navInv_of_eq _ _ h rfl rfl rfl rfl
  | collapseInstrument => exact navInv_of_eq _ _ h rfl rfl rfl rfl
  | setContributionSpacing q => exact navInv_of_eq _ _ h rfl rfl rfl rfl
  | selectContribution c => exact navInv_of_eq _ _ h rfl rfl rfl rfl
  | setViewMode m => exact navInv_of_eq _ _ h rfl rfl rfl rfl
  | setHoveredNode n => exact navInv_of_eq _ _ h rfl rfl rfl rfl
  | cycleNodes d =>
      simp only [navStep, cycleNodes]
      split
      · exact h
      · exact navInv_of_eq _ _ h rfl rfl rfl rfl
  | setFocusedNodeIndex i =>
      simp only [navStep, setFocusedNodeIndex]
      split
      · exact h
      · exact navInv_of_eq _ _ h rfl rfl rfl rfl
  | setCarouselOffset q => exact navInv_of_eq _ _ h rfl rfl rfl rfl
  | scrollCarousel q =>
      simp only [navStep, scrollCarousel]
      split
      · exact h
      · exact navInv_of_eq _ _ h rfl rfl rfl rfl

lemma runNav_inv (cmds : List NavCmd) (s : NavState) (h : NavInv s) :
    NavInv (runNav s cmds) := by
  induction cmds generalizing s with
  | nil => exact h
  | cons c cs ih => exact ih _ (navStep_inv _ _ h)

lemma navInitial_inv : NavInv navInitial := by
  refine ⟨rfl, ⟨fun _ => rfl, fun e he => ?_⟩, fun e he => ?_⟩ <;>
    simp [navInitial] at he

/-- C1: for every hierarchy tree and every sequence of navigation
operations (initialize, selectNode with its timed phase advances,
completeAnimation, goBack — including its timed settlement — and reset),
whenever `animationPhase = idle`, `selectionPath.length` equals
`currentLevel`, and `currentNodes` equals the children of the node in the
last `selectionPath` entry, or the root node list when `selectionPath` is
empty. -/
theorem navIdleConsistency (cmds : List NavCmd)
    (_hidle : (runNav navInitial cmds).animationPhase = .idle) :
    (runNav navInitial cmds).selectionPath.length = (runNav navInitial cmds).currentLevel ∧
    ((runNav navInitial cmds).selectionPath.getLast? = none →
      (runNav navInitial cmds).currentNodes = (runNav navInitial cmds).rootNodes) ∧
    (∀ e, (runNav navInitial cmds).selectionPath.getLast? = some e →
      e.node.children = some (runNav navInitial cmds).currentNodes) := by
  have h := runNav_inv cmds navInitial navInitial_inv
  exact ⟨h.1, h.2.1.1, h.2.1.2⟩

theorem navIdleConsistency_witness :
    (runNav navInitial c1DemoCmds).animationPhase = .idle ∧
    ((runNav navInitial c1DemoCmds).selectionPath.length =
        (runNav navInitial c1DemoCmds).currentLevel ∧
      ((runNav navInitial c1DemoCmds).selectionPath.getLast? = none →
        (runNav navInitial c1DemoCmds).currentNodes = (runNav navInitial c1DemoCmds).rootNodes) ∧
      (∀ e, (runNav navInitial c1DemoCmds).selectionPath.getLast? = some e →
        e.node.children = some (runNav navInitial c1DemoCmds).currentNodes)) :=
  ⟨by decide, navIdleConsistency c1DemoCmds (by decide)⟩

lemma animInv_of_eq (s2 s : NavState) (h : AnimInv s)
    (hp : s2.animationPhase = s.animationPhase)
    (ha : s2.animatingNodeId = s.animatingNodeId) : AnimInv s2 := by
  unfold AnimInv at h ⊢
  rw [hp, ha]
  exact h

lemma animInv_of_idle (s2 : NavState) (hp : s2.animationPhase = .idle) : AnimInv s2 := by
  intro hne
  exact absurd hp hne

lemma navStep_animInv (s : NavState) (c : NavCmd) (hc : isExplodeCmd c = false)
    (h : AnimInv s) : AnimInv (navStep s c) := by
  cases c with
  | initNav roots => exact animInv_of_idle _ rfl
  | selectNode i =>
      simp only [navStep]
      unfold selectNode
      split
      · exact h
      · split
        · exact h
        · split
          · exact animInv_of_eq _ _ h rfl rfl
          · intro _
            simp
  | timerToMoving =>
      simp only [navStep, timerToMoving]
      split
      · rename_i hsel
        intro _
        exact h (by rw [hsel]; simp)
      · exact h
  | timerToSplitting =>
      simp only [navStep, timerToSplitting]
      split
      · rename_i hmov
        intro _
        exact h (by rw [hmov]; simp)
      · exact h
  | completeAnimation =>
      simp only [navStep]
      unfold completeAnimation
      split
      · split
        · exact h
        · split
          · exact h
          · split
            · exact h
            · exact animInv_of_idle _ rfl
      · exact animInv_of_idle _ rfl
  | goBack t =>
      simp only [navStep, goBack]
      split
      · exact h
      · split
        · exact h
        · split
          · exact h
          · exact animInv_of_idle _ rfl
  | resetNav => exact animInv_of_idle _ rfl
  | explodeInstrument i => simp [isExplodeCmd] at hc
  | explodeTimer => exact animInv_of_idle _ rfl
  | collapseInstrument => exact animInv_of_eq _ _ h rfl rfl
  | setContributionSpacing q => exact animInv_of_eq _ _ h rfl rfl
  | selectContribution c => exact animInv_of_eq _ _ h rfl rfl
  | setViewMode m => exact animInv_of_eq _ _ h rfl rfl
  | setHoveredNode n => exact animInv_of_eq _ _ h rfl rfl
  | cycleNodes d =>
      simp only [navStep, cycleNodes]
      split
      · exact h
      · exact animInv_of_eq _ _ h rfl rfl
  | setFocusedNodeIndex i =>
      simp only [navStep, setFocusedNodeIndex]
      split
      · exact h
      · exact animInv_of_eq _ _ h rfl rfl
  | setCarouselOffset q => exact animInv_of_eq _ _ h rfl rfl
  | scrollCarousel q =>
      simp only [navStep, scrollCarousel]
      split
      · exact h
      · exact animInv_of_eq _ _ h rfl rfl

/-- C2 counterexample: after `initialize` and `explodeInstrument` on a
node with children, the state is reachable, `animationPhase` is not
`idle` (it is `selecting`), and yet `animatingNodeId` is `null` — the
claimed invariant is false on the code. -/
theorem c2ExplodeBreaksAnimInv :
    (runNav navInitial c2ExplodeCmds).animationPhase ≠ .idle ∧
    (runNav navInitial c2ExplodeCmds).animatingNodeId = none := by
  constructor
  · decide
  · decide

/-- C2 amended: (a) in every execution that never issues
`explodeInstrument`, `animationPhase ≠ idle` implies `animatingNodeId` is
non-null (`explodeInstrument` breaks this by entering `selecting` with a
null `animatingNodeId`); and (b) in every state, each node-selection
command (`selectNode`, `goBack`, `explodeInstrument`) issued while
`animationPhase ≠ idle` leaves the state unchanged. -/
theorem c2SingleInFlight :
    (∀ cmds : List NavCmd, (∀ c ∈ cmds, isExplodeCmd c = false) →
      (runNav navInitial cmds).animationPhase ≠ .idle →
      (runNav navInitial cmds).animatingNodeId ≠ none) ∧
    (∀ (s : NavState) (nodeId : String) (t : Option ℤ) (instrumentId : String),
      s.animationPhase ≠ .idle →
      selectNode s nodeId = s ∧ goBack s t = s ∧ explodeInstrument s instrumentId = s) := by
  constructor
  · intro cmds hne
    have : ∀ s : NavState, AnimInv s → AnimInv (runNav s cmds) := by
      induction cmds with
      | nil => exact fun s hs => hs
      | cons c cs ih =>
          intro s hs
          exact ih (fun d hd => hne d (List.mem_cons_of_mem _ hd)) _
            (navStep_animInv s c (hne c (List.mem_cons_self _ _)) hs)
    exact this navInitial (animInv_of_idle _ rfl)
  · intro s nodeId t instrumentId hbusy
    refine ⟨?_, ?_, ?_⟩
    · unfold selectNode
      rw [if_pos hbusy]
    · unfold goBack
      rw [if_pos hbusy]
    · unfold explodeInstrument
      rw [if_pos hbusy]

theorem c2SingleInFlight_witness :
    ((∀ c ∈ c2NoExplodeCmds, isExplodeCmd c = false) ∧
      (runNav navInitial c2NoExplodeCmds).animationPhase ≠ .idle ∧
      (runNav navInitial c2NoExplodeCmds).animatingNodeId ≠ none) ∧
    (c2BusyState.animationPhase ≠ .idle ∧ selectNode c2BusyState "node-9" = c2BusyState) :=
  ⟨⟨by decide, by decide, c2SingleInFlight.1 c2NoExplodeCmds (by decide) (by decide)⟩,
   ⟨by decide, (c2SingleInFlight.2 c2BusyState "node-9" none "node-9" (by decide)).1⟩⟩

/-- C8 counterexample: `setCarouselOffset` clamps the offset but does NOT
synchronize `focusedNodeIndex` (nor `hoveredNodeId`): on a state with
three siblings and focus 0, `setCarouselOffset 2` stores offset 2 while
the focused index stays 0 instead of the claimed rounded offset. -/
theorem c8SetCarouselOffsetNoSync :
    (setCarouselOffset c8DemoState 2).carouselOffset = 2 ∧
    (setCarouselOffset c8DemoState 2).focusedNodeIndex ≠
      jround ((setCarouselOffset c8DemoState 2).carouselOffset) := by
  have hoff : (setCarouselOffset c8DemoState 2).carouselOffset = 2 := by
    show max 0 (min ((c8DemoState.currentNodes.length : ℚ) - 1) 2) = 2
    norm_num [c8DemoState, min_def, max_def]
  refine ⟨hoff, ?_⟩
  rw [hoff]
  have hfoc : (setCarouselOffset c8DemoState 2).focusedNodeIndex = 0 := rfl
  rw [hfoc]
  have hro : jround 2 = 2 := by
    unfold jround
    norm_num
  rw [hro]
  norm_num

/-- C8 amended: when `currentNodes` is nonempty, both `scrollCarousel`
and `setCarouselOffset` clamp the resulting `carouselOffset` into
`[0, count-1]`; `scrollCarousel` additionally sets `focusedNodeIndex` to
the rounded clamped offset and `hoveredNodeId` to the id of the node at
that rounded index, while `setCarouselOffset` leaves `focusedNodeIndex`
and `hoveredNodeId` unchanged. -/
theorem c8CarouselClampAndSync (s : NavState) (offset delta : ℚ)
    (hcount : 0 < s.currentNodes.length) :
    (0 ≤ (setCarouselOffset s offset).carouselOffset ∧
      (setCarouselOffset s offset).carouselOffset ≤ (s.currentNodes.length : ℚ) - 1 ∧
      (setCarouselOffset s offset).focusedNodeIndex = s.focusedNodeIndex ∧
      (setCarouselOffset s offset).hoveredNodeId = s.hoveredNodeId) ∧
    (0 ≤ (scrollCarousel s delta).carouselOffset ∧
      (scrollCarousel s delta).carouselOffset ≤ (s.currentNodes.length : ℚ) - 1 ∧
      (scrollCarousel s delta).focusedNodeIndex =
        jround ((scrollCarousel s delta).carouselOffset) ∧
      (scrollCarousel s delta).hoveredNodeId =
        idOrNull s.currentNodes (jround ((scrollCarousel s delta).carouselOffset))) := by
  have hone : (1 : ℚ) ≤ (s.currentNodes.length : ℚ) := by
    exact_mod_cast hcount
  have hcz : s.currentNodes.length ≠ 0 := Nat.pos_iff_ne_zero.mp hcount
  constructor
  · refine ⟨le_max_left _ _, ?_, rfl, rfl⟩
    show max 0 (min ((s.currentNodes.length : ℚ) - 1) offset) ≤ _
    exact max_le (by linarith) (min_le_left _ _)
  · unfold scrollCarousel
    rw [if_neg hcz]
    refine ⟨le_max_left _ _, ?_, rfl, rfl⟩
    exact max_le (by linarith) (min_le_left _ _)

theorem c8CarouselClampAndSync_witness :
    0 < c8DemoState.currentNodes.length ∧
    0 ≤ (scrollCarousel c8DemoState 7).carouselOffset ∧
    (scrollCarousel c8DemoState 7).carouselOffset ≤ (c8DemoState.currentNodes.length : ℚ) - 1 :=
  ⟨by decide,
   (c8CarouselClampAndSync c8DemoState 5 7 (by decide)).2.1,
   (c8CarouselClampAndSync c8DemoState 5 7 (by decide)).2.2.1⟩

/-- C9: out-of-range numeric inputs are silently clamped, never
rejected: `setContributionSpacing` clamps into `[0.05, 0.4]` (an input at
or below the minimum yields the minimum, at or above the maximum yields
the maximum), `setCarouselOffset` clamps into `[0, count-1]` (for a
nonempty sibling set), and `updateTransitionProgress` clamps
`transitionProgress` into `[0, 1]`.  All three are total functions on
their numeric argument — there is no rejection or error path. -/
theorem c9ClampNeverReject (s : NavState) (q off p : ℚ) (fs : FormationState)
    (hcount : 0 < s.currentNodes.length) :
    ((0.05 : ℚ) ≤ (setContributionSpacing s q).contributionSpacing ∧
      (setContributionSpacing s q).contributionSpacing ≤ (0.4 : ℚ)) ∧
    (q ≤ 0.05 → (setContributionSpacing s q).contributionSpacing = 0.05) ∧
    (0.4 ≤ q → (setContributionSpacing s q).contributionSpacing = 0.4) ∧
    (0 ≤ (setCarouselOffset s off).carouselOffset ∧
      (setCarouselOffset s off).carouselOffset ≤ (s.currentNodes.length : ℚ) - 1) ∧
    (0 ≤ (updateTransitionProgress fs p).transitionProgress ∧
      (updateTransitionProgress fs p).transitionProgress ≤ 1) := by
  have hone : (1 : ℚ) ≤ (s.currentNodes.length : ℚ) := by
    exact_mod_cast hcount
  refine ⟨⟨le_max_left _ _, max_le (by norm_num) (min_le_left _ _)⟩, ?_, ?_, ?_, ?_⟩
  · intro hq
    show max 0.05 (min 0.4 q) = 0.05
    rw [min_eq_right (by linarith), max_eq_left hq]
  · intro hq
    show max 0.05 (min 0.4 q) = 0.4
    rw [min_eq_left hq, max_eq_right (by norm_num)]
  · exact ⟨le_max_left _ _, max_le (by linarith) (min_le_left _ _)⟩
  · exact ⟨le_max_left _ _, max_le (by norm_num) (min_le_left _ _)⟩

theorem c9ClampNeverReject_witness :
    0 < c8DemoState.currentNodes.length ∧
    (setContributionSpacing c8DemoState 0.05).contributionSpacing = 0.05 :=
  ⟨by decide,
   (c9ClampNeverReject c8DemoState 0.05 9 2 initialFormationState (by decide)).2.1
     (le_refl (0.05 : ℚ))⟩

lemma smoothStep_zero : smoothStep 0 = 0 := by
  unfold smoothStep
  rw [min_eq_right zero_le_one, max_self]
  ring

lemma smoothStep_one : smoothStep 1 = 1 := by
  unfold smoothStep
  rw [min_self, max_eq_right zero_le_one]
  ring

lemma lerpR_zero (a b : ℝ) : lerpR a b 0 = a := by
  unfold lerpR
  ring

lemma lerpR_one (a b : ℝ) : lerpR a b 1 = b := by
  unfold lerpR
  ring

/-- C4: for every latitude in `[-90, 90]` and longitude in `[-180, 180]`
(and in fact for every real pair), `interpolateSphereToProjection` at
progress 0 equals `latLongToSphere` exactly, and at progress 1 equals the
flat Van der Grinten IV projection placed at `cfg.yLevel`, scaled by
`cfg.scale` and offset by `cfg.center`. -/
theorem c4SphereProjectionEndpoints (latq longq : ℚ) (radius : ℝ) (cfg : ProjectionConfig)
    (_hlat1 : -90 ≤ latq) (_hlat2 : latq ≤ 90)
    (_hlong1 : -180 ≤ longq) (_hlong2 : longq ≤ 180) :
    interpolateSphereToProjection ⟨(latq : ℝ), (longq : ℝ)⟩ 0 radius cfg =
      latLongToSphere (latq : ℝ) (longq : ℝ) radius ∧
    interpolateSphereToProjection ⟨(latq : ℝ), (longq : ℝ)⟩ 1 radius cfg =
      vecAdd
        (projectionTo3D (vanDerGrinten4 (latq : ℝ) (longq : ℝ)).1
          (vanDerGrinten4 (latq : ℝ) (longq : ℝ)).2 cfg.yLevel cfg.scale)
        cfg.center := by
  constructor
  · show (lerpR _ _ (smoothStep 0), lerpR _ _ (smoothStep 0), lerpR _ _ (smoothStep 0)) = _
    rw [smoothStep_zero, lerpR_zero, lerpR_zero, lerpR_zero]
  · show (lerpR _ _ (smoothStep 1), lerpR _ _ (smoothStep 1), lerpR _ _ (smoothStep 1)) = _
    rw [smoothStep_one, lerpR_one, lerpR_one, lerpR_one]

theorem c4SphereProjectionEndpoints_witness :
    ((-90 : ℚ) ≤ 45 ∧ (45 : ℚ) ≤ 90 ∧ (-180 : ℚ) ≤ 30 ∧ (30 : ℚ) ≤ 180) ∧
    interpolateSphereToProjection ⟨((45 : ℚ) : ℝ), ((30 : ℚ) : ℝ)⟩ 0 2.5
        ⟨1.5, 1.2, (0, 0, 0)⟩ =
      latLongToSphere ((45 : ℚ) : ℝ) ((30 : ℚ) : ℝ) 2.5 :=
  ⟨⟨by norm_num, by norm_num, by norm_num, by norm_num⟩,
   (c4SphereProjectionEndpoints 45 30 2.5 ⟨1.5, 1.2, (0, 0, 0)⟩
     (by norm_num) (by norm_num) (by norm_num) (by norm_num)).1⟩

lemma vdg4_pole_pos (long : ℝ) :
    vanDerGrinten4 90 long = (0, π / 2) := by
  have hpi := Real.pi_pos
  have habs : |(90 : ℝ) * π / 180| = π / 2 := by
    rw [abs_of_pos (by positivity)]
    ring
  simp only [vanDerGrinten4]
  rw [habs, sub_self, abs_zero, if_pos (by norm_num [EPSILON])]
  rw [if_pos (by positivity : (0:ℝ) < 90 * π / 180)]

lemma vdg4_pole_neg (long : ℝ) :
    vanDerGrinten4 (-90) long = (0, -(π / 2)) := by
  have hpi := Real.pi_pos
  have habs : |(-90 : ℝ) * π / 180| = π / 2 := by
    rw [abs_of_neg (by nlinarith : (-90 : ℝ) * π / 180 < 0)]
    ring
  simp only [vanDerGrinten4]
  rw [habs, sub_self, abs_zero, if_pos (by norm_num [EPSILON])]
  rw [if_neg (by nlinarith : ¬ (-90 : ℝ) * π / 180 > 0)]

lemma vdg4_equator (long : ℝ) :
    vanDerGrinten4 0 long = (long * π / 180, 0) := by
  have hpi3 := Real.pi_gt_three
  simp only [vanDerGrinten4]
  rw [show (0 : ℝ) * π / 180 = 0 by ring, abs_zero, zero_sub, abs_neg,
      abs_of_pos (by nlinarith : (0:ℝ) < π / 2)]
  rw [if_neg (by rw [EPSILON]; norm_num; nlinarith), if_pos (by rw [EPSILON]; norm_num)]

/-- C5: `vanDerGrinten4` on every combination of `lat ∈ {-90, 0, 90}` and
`long ∈ {-180, 0, 180}` hits the pole or equator special case and returns
an in-range point: `x ∈ [-π, π]` and `y ∈ [-π/2, π/2]` (in this real
model every value is finite; no division is reached on these inputs). -/
theorem c5ProjectionBoundary (lat long : ℝ)
    (hlat : lat = -90 ∨ lat = 0 ∨ lat = 90)
    (hlong : long = -180 ∨ long = 0 ∨ long = 180) :
    -π ≤ (vanDerGrinten4 lat long).1 ∧ (vanDerGrinten4 lat long).1 ≤ π ∧
    -(π / 2) ≤ (vanDerGrinten4 lat long).2 ∧ (vanDerGrinten4 lat long).2 ≤ π / 2 := by
  have hpi := Real.pi_pos
  rcases hlat with h | h | h <;> subst h
  · rw [vdg4_pole_neg long]
    refine ⟨by simp; try linarith, by simp; try linarith, by simp; try linarith,
      by simp; try linarith⟩
  · rw [vdg4_equator long]
    rcases hlong with h2 | h2 | h2 <;> subst h2 <;>
      refine ⟨by simp; try nlinarith, by simp; try nlinarith, by simp; try nlinarith,
        by simp; try nlinarith⟩
  · rw [vdg4_pole_pos long]
    refine ⟨by simp; try linarith, by simp; try linarith, by simp; try linarith,
      by simp; try linarith⟩

lemma JsMap.get_set (m : JsMap) (k : String) (v : Vec3) (q : String) :
    (JsMap.set m k v).get q = if q = k then some v else m.get q := rfl

lemma JsMap.mem_keys_set (m : JsMap) (k : String) (v : Vec3) (a : String) :
    a ∈ (JsMap.set m k v).keys ↔ a ∈ m.keys ∨ a = k := by
  unfold JsMap.set
  dsimp only
  split
  · rename_i hk
    constructor
    · exact fun h => Or.inl h
    · rintro (h | rfl)
      · exact h
      · exact hk
  · simp [List.mem_append]

theorem c5ProjectionBoundary_witness :
    ((0 : ℝ) = -90 ∨ (0 : ℝ) = 0 ∨ (0 : ℝ) = 90) ∧
    ((180 : ℝ) = -180 ∨ (180 : ℝ) = 0 ∨ (180 : ℝ) = 180) ∧
    (vanDerGrinten4 0 180).1 ≤ π :=
  ⟨Or.inr (Or.inl rfl), Or.inr (Or.inr rfl),
   (c5ProjectionBoundary 0 180 (Or.inr (Or.inl rfl)) (Or.inr (Or.inr rfl))).2.1⟩

lemma forEachSet_get_of_not_mem (ps : List Particle) (pos : ℕ → Particle → Vec3)
    (m : JsMap) (i : ℕ) (q : String) (hq : q ∉ ids ps) :
    (forEachSet m i ps pos).get q = m.get q := by
  induction ps generalizing m i with
  | nil => rfl
  | cons p rest ih =>
      have hq1 : q ≠ p.id := fun h => hq (by simp [ids, h])
      have hq2 : q ∉ ids rest := fun h => hq (by simp [ids] at h ⊢; exact Or.inr h)
      show (forEachSet (m.set p.id _) (i + 1) rest pos).get q = m.get q
      rw [ih _ _ hq2, JsMap.get_set, if_neg hq1]

lemma forEachSet_get_isSome (ps : List Particle) (pos : ℕ → Particle → Vec3)
    (m : JsMap) (i : ℕ) (q : String) (hq : q ∈ ids ps) :
    ((forEachSet m i ps pos).get q).isSome := by
  induction ps generalizing m i with
  | nil => simp [ids] at hq
  | cons p rest ih =>
      by_cases hrest : q ∈ ids rest
      · exact ih _ _ hrest
      · have hq1 : q = p.id := by
          simp [ids] at hq
          rcases hq with h | h
          · exact h
          · exact absurd (by simpa [ids] using h) hrest
        show ((forEachSet (m.set p.id _) (i + 1) rest pos).get q).isSome
        rw [forEachSet_get_of_not_mem rest pos _ _ q hrest, JsMap.get_set, if_pos hq1]
        rfl

lemma forEachSet_keys_mem (ps : List Particle) (pos : ℕ → Particle → Vec3)
    (m : JsMap) (i : ℕ) (a : String) :
    a ∈ (forEachSet m i ps pos).keys ↔ a ∈ m.keys ∨ a ∈ ids ps := by
  induction ps generalizing m i with
  | nil => simp [forEachSet, ids]
  | cons p rest ih =>
      show a ∈ (forEachSet (m.set p.id _) (i + 1) rest pos).keys ↔ _
      rw [ih, JsMap.mem_keys_set]
      simp [ids]
      tauto

/-- C10: for every particle list and time, `calculateGlobeFormation` and
`calculateNebulaFormation` return a position map whose key set is exactly
the input particle ids, and `calculateGalaxyFormation` returns a map
whose key set is exactly the ids of the particles whose asset class is
equities, fixed-income or alternatives (every particle, since the asset
class type is exhaustive): nothing is dropped, nothing extra appears. -/
theorem c10FormationKeySets (ps : List Particle) (t : ℝ) (gcfg : GlobeConfig)
    (ncfg : NebulaConfig) :
    (∀ a, a ∈ (calculateGlobeFormation ps t gcfg).keys ↔ a ∈ ids ps) ∧
    (∀ a, a ∈ (calculateNebulaFormation ps ncfg t).keys ↔ a ∈ ids ps) ∧
    (∀ a, a ∈ (calculateGalaxyFormation ps t).keys ↔
      ∃ p ∈ ps, p.id = a ∧ (p.assetClass = .equities ∨ p.assetClass = .fixedIncome ∨
        p.assetClass = .alternatives)) := by
  refine ⟨?_, ?_, ?_⟩
  · intro a
    show a ∈ (forEachSet JsMap.empty 0 ps _).keys ↔ _
    rw [forEachSet_keys_mem]
    simp [JsMap.empty]
  · intro a
    show a ∈ (forEachSet JsMap.empty 0 (sortByValueDesc ps) _).keys ↔ _
    rw [forEachSet_keys_mem]
    have hperm : List.Perm (ids (sortByValueDesc ps)) (ids ps) := by
      unfold ids sortByValueDesc
      exact (List.mergeSort_perm ps _).map (fun p => p.id)
    simp [JsMap.empty, hperm.mem_iff]
  · intro a
    show a ∈ (forEachSet (forEachSet (forEachSet JsMap.empty 0 _ _) 0 _ _) 0 _ _).keys ↔ _
    rw [forEachSet_keys_mem, forEachSet_keys_mem, forEachSet_keys_mem]
    simp only [JsMap.empty, List.not_mem_nil, false_or, ids, List.mem_map,
      List.mem_filter, decide_eq_true_eq]
    constructor
    · rintro ((⟨p, ⟨hp, hc⟩, rfl⟩ | ⟨p, ⟨hp, hc⟩, rfl⟩) | ⟨p, ⟨hp, hc⟩, rfl⟩)
      · exact ⟨p, hp, rfl, Or.inl hc⟩
      · exact ⟨p, hp, rfl, Or.inr (Or.inl hc)⟩
      · exact ⟨p, hp, rfl, Or.inr (Or.inr hc)⟩
    · rintro ⟨p, hp, rfl, hc | hc | hc⟩
      · exact Or.inl (Or.inl ⟨p, ⟨hp, hc⟩, rfl⟩)
      · exact Or.inl (Or.inr ⟨p, ⟨hp, hc⟩, rfl⟩)
      · exact Or.inr ⟨p, ⟨hp, hc⟩, rfl⟩

lemma galaxyToGlobeAux_get_of_not_mem (startM endM : JsMap) (progress eased : ℝ)
    (ps : List Particle) (m : JsMap) (q : String) (hq : q ∉ ids ps) :
    (galaxyToGlobeAux startM endM progress eased m ps).get q = m.get q := by
  induction ps generalizing m with
  | nil => rfl
  | cons p rest ih =>
      have hq1 : q ≠ p.id := fun h => hq (by simp [ids, h])
      have hq2 : q ∉ ids rest := fun h => hq (by simp [ids] at h ⊢; exact Or.inr h)
      show (galaxyToGlobeAux startM endM progress eased m (p :: rest)).get q = m.get q
      simp only [galaxyToGlobeAux]
      cases hs : startM.get p.id <;> cases he : endM.get p.id <;>
        simp only [ih _ hq2, JsMap.get_set, if_neg hq1]

lemma galaxyToGlobeAux_get_agree (startM endM tgt : JsMap) (progress eased : ℝ)
    (hval : ∀ (q : String) (s e : Vec3), startM.get q = some s → endM.get q = some e →
      some ((lerpR s.1 e.1 eased, lerpR s.2.1 e.2.1 eased + Real.sin (progress * π) * 2,
        lerpR s.2.2 e.2.2 eased) : Vec3) = tgt.get q)
    (ps : List Particle) (m : JsMap) (q : String) (hq : q ∈ ids ps)
    (hcov : ∀ p ∈ ps, (startM.get p.id).isSome ∧ (endM.get p.id).isSome) :
    (galaxyToGlobeAux startM endM progress eased m ps).get q = tgt.get q := by
  induction ps generalizing m with
  | nil => simp [ids] at hq
  | cons p rest ih =>
      obtain ⟨hps, hpe⟩ := hcov p (by simp)
      obtain ⟨s, hs⟩ := Option.isSome_iff_exists.mp hps
      obtain ⟨e, he⟩ := Option.isSome_iff_exists.mp hpe
      show (galaxyToGlobeAux startM endM progress eased m (p :: rest)).get q = _
      simp only [galaxyToGlobeAux, hs, he]
      by_cases hrest : q ∈ ids rest
      · exact ih _ hrest (fun r hr => hcov r (by simp [hr]))
      · have hq1 : q = p.id := by
          simp [ids] at hq
          rcases hq with h | h
          · exact h
          · exact absurd (by simpa [ids] using h) hrest
        rw [galaxyToGlobeAux_get_of_not_mem _ _ _ _ _ _ _ hrest, JsMap.get_set, if_pos hq1]
        subst hq1
        exact hval p.id s e hs he

lemma easeInOutCubic_zero : easeInOutCubic 0 = 0 := by
  unfold easeInOutCubic
  rw [if_pos (by norm_num)]
  ring

lemma easeInOutCubic_one : easeInOutCubic 1 = 1 := by
  unfold easeInOutCubic
  rw [if_neg (by norm_num)]
  norm_num

/-- C6: for every nonempty particle list, time, and start-position map
with an entry for every particle id, `calculateGalaxyToGlobe` at
progress 0 returns exactly the given galaxy start positions, and at
progress 1 returns exactly the globe-formation positions computed for
the same particles and time (the arc-height flourish `sin(πt)·2`
vanishes at both endpoints; in this real-number model "within
floating-point tolerance" is exact equality). -/
theorem c6GalaxyToGlobeEndpoints (ps : List Particle) (startM : JsMap) (t : ℝ)
    (_hne : ps ≠ [])
    (hcov : ∀ p ∈ ps, (startM.get p.id).isSome) :
    (∀ p ∈ ps, (calculateGalaxyToGlobe ps startM 0 t).get p.id = startM.get p.id) ∧
    (∀ p ∈ ps, (calculateGalaxyToGlobe ps startM 1 t).get p.id =
      (calculateGlobeFormation ps t GLOBE_CONFIG).get p.id) := by
  have hglobe : ∀ p ∈ ps, ((calculateGlobeFormation ps t GLOBE_CONFIG).get p.id).isSome := by
    intro p hp
    refine forEachSet_get_isSome ps _ _ _ _ ?_
    simp only [ids, List.mem_map]
    exact ⟨p, hp, rfl⟩
  constructor
  · intro p hp
    show (galaxyToGlobeAux startM _ 0 (easeInOutCubic 0) JsMap.empty ps).get p.id = _
    refine galaxyToGlobeAux_get_agree startM _ startM 0 (easeInOutCubic 0) ?_ ps JsMap.empty
      p.id ?_ (fun r hr => ⟨hcov r hr, hglobe r hr⟩)
    · intro q s e hs he
      rw [easeInOutCubic_zero, lerpR_zero, lerpR_zero, lerpR_zero, zero_mul, Real.sin_zero,
        zero_mul, add_zero, hs]
    · simp only [ids, List.mem_map]
      exact ⟨p, hp, rfl⟩
  · intro p hp
    show (galaxyToGlobeAux startM _ 1 (easeInOutCubic 1) JsMap.empty ps).get p.id = _
    refine galaxyToGlobeAux_get_agree startM _ _ 1 (easeInOutCubic 1) ?_ ps JsMap.empty
      p.id ?_ (fun r hr => ⟨hcov r hr, hglobe r hr⟩)
    · intro q s e hs he
      rw [easeInOutCubic_one, lerpR_one, lerpR_one, lerpR_one, one_mul, Real.sin_pi,
        zero_mul, add_zero, he]
    · simp only [ids, List.mem_map]
      exact ⟨p, hp, rfl⟩

theorem c6GalaxyToGlobeEndpoints_witness :
    (([c6Particle] : List Particle) ≠ [] ∧
      ∀ p ∈ ([c6Particle] : List Particle), (c6Start.get p.id).isSome) ∧
    (∀ p ∈ ([c6Particle] : List Particle),
      (calculateGalaxyToGlobe [c6Particle] c6Start 0 0).get p.id = c6Start.get p.id) :=
  ⟨⟨by simp, by simp [c6Start, JsMap.get_set, c6Particle]⟩,
   (c6GalaxyToGlobeEndpoints [c6Particle] c6Start 0 (by simp)
     (by simp [c6Start, JsMap.get_set, c6Particle])).1⟩

/-- C3 counterexample: two runs of `calculateGlobeToNebula` on identical
(particles, start positions, progress ½, region, time) inputs but
different `Math.random()` streams return different positions for the
same particle — the function depends on the hidden global RNG. -/
theorem c3GlobeToNebulaUsesGlobalRng :
    (calculateGlobeToNebula rngZero [c3Particle] c3Start (1 / 2) none 0).get "particle-a" ≠
      (calculateGlobeToNebula rngOne [c3Particle] c3Start (1 / 2) none 0).get "particle-a" := by
  have hid : c3Particle.id = "particle-a" := rfl
  have hs : c3Start.get "particle-a" = some (0, 0, 0) := by
    simp [c3Start, JsMap.get_set]
  have hn : (calculateNebulaFormation [c3Particle]
      ⟨getRegionNebulaCenter none, NEBULA_CONFIG.spread, NEBULA_CONFIG.yAxisMetric⟩
      0).get "particle-a" =
      some (calculateNebulaPosition c3Particle 0 1
        ⟨getRegionNebulaCenter none, NEBULA_CONFIG.spread, NEBULA_CONFIG.yAxisMetric⟩ 0) := by
    unfold calculateNebulaFormation sortByValueDesc
    rw [List.mergeSort_singleton]
    simp [forEachSet, JsMap.get_set, c3Particle]
  have key : ∀ rg : ℕ → ℝ,
      (calculateGlobeToNebula rg [c3Particle] c3Start (1 / 2) none 0).get "particle-a" =
        some (lerpR 0 (calculateNebulaPosition c3Particle 0 1
            ⟨getRegionNebulaCenter none, NEBULA_CONFIG.spread, NEBULA_CONFIG.yAxisMetric⟩ 0).1
              (easeOutQuart (1 / 2)) +
            (rg 0 - 0.5) * (Real.sin ((1 / 2 : ℝ) * π) * 0.5),
          lerpR 0 (calculateNebulaPosition c3Particle 0 1
            ⟨getRegionNebulaCenter none, NEBULA_CONFIG.spread, NEBULA_CONFIG.yAxisMetric⟩ 0).2.1
              (easeOutQuart (1 / 2)) +
            (rg 1 - 0.5) * (Real.sin ((1 / 2 : ℝ) * π) * 0.5),
          lerpR 0 (calculateNebulaPosition c3Particle 0 1
            ⟨getRegionNebulaCenter none, NEBULA_CONFIG.spread, NEBULA_CONFIG.yAxisMetric⟩ 0).2.2
              (easeOutQuart (1 / 2)) +
            (rg 2 - 0.5) * (Real.sin ((1 / 2 : ℝ) * π) * 0.5)) := by
    intro rg
    show (globeToNebulaAux rg c3Start
        (calculateNebulaFormation [c3Particle]
          ⟨getRegionNebulaCenter none, NEBULA_CONFIG.spread, NEBULA_CONFIG.yAxisMetric⟩ 0)
        (1 / 2) (easeOutQuart (1 / 2)) 0 JsMap.empty [c3Particle]).get "particle-a" = _
    simp only [globeToNebulaAux, hid, hs, hn]
    simp [JsMap.get_set]
  rw [key rngZero, key rngOne]
  intro h
  have h1 := (Prod.ext_iff.mp (Option.some_inj.mp h)).1
  simp only [rngZero, rngOne] at h1
  have hsin : Real.sin ((1 / 2 : ℝ) * π) = 1 := by
    rw [show (1 / 2 : ℝ) * π = π / 2 by ring, Real.sin_pi_div_two]
  rw [hsin] at h1
  norm_num at h1

/-- The inner loop of `calculateGlobeToNebula` is independent of the RNG
stream whenever the spread factor `sin(progress·π)·0.5` vanishes. -/
lemma globeToNebulaAux_rng_indep (r r2 : ℕ → ℝ) (startM endM : JsMap)
    (progress eased : ℝ) (hsf : Real.sin (progress * π) * 0.5 = 0) :
    ∀ (ps : List Particle) (c c2 : ℕ) (m : JsMap),
      globeToNebulaAux r startM endM progress eased c m ps =
        globeToNebulaAux r2 startM endM progress eased c2 m ps := by
  intro ps
  induction ps with
  | nil => intro c c2 m; rfl
  | cons p rest ih =>
      intro c c2 m
      simp only [globeToNebulaAux]
      cases hsp : startM.get p.id <;> cases hep : endM.get p.id <;>
        simp only [hsf, mul_zero, add_zero]
      · exact ih _ _ _
      · exact ih _ _ _
      · exact ih _ _ _
      · exact ih _ _ _

/-- C3 amended: every formation calculator and cross-formation transition
is a deterministic function of its listed inputs, except
`calculateGlobeToNebula`, which draws per-particle spread jitter from the
global `Math.random()`; its output is RNG-independent exactly at
progress 0 and 1, where the spread factor `sin(progress·π)·0.5`
vanishes. -/
theorem c3FormationDeterminism :
    ∀ (r r2 : ℕ → ℝ) (ps : List Particle) (startM : JsMap)
      (sel : Option GeographicRegion) (t : ℝ),
      calculateGlobeToNebula r ps startM 0 sel t =
        calculateGlobeToNebula r2 ps startM 0 sel t ∧
      calculateGlobeToNebula r ps startM 1 sel t =
        calculateGlobeToNebula r2 ps startM 1 sel t := by
  intro r r2 ps startM sel t
  constructor
  · unfold calculateGlobeToNebula
    exact globeToNebulaAux_rng_indep r r2 _ _ 0 _
      (by rw [zero_mul, Real.sin_zero, zero_mul]) _ 0 0 _
  · unfold calculateGlobeToNebula
    exact globeToNebulaAux_rng_indep r r2 _ _ 1 _
      (by rw [one_mul, Real.sin_pi, zero_mul]) _ 0 0 _

/-- C7 counterexample: `calculateGalaxyToGlobe` does not apply a cubic or
quartic ease-out.  On one particle sitting at the north pole (globe
target `(0, 4, 0)`) with start `(0, 0, 0)` and progress ¼, its output
differs from the same pipeline run with `1-(1-t)³` and with `1-(1-t)⁴`:
the source applies `easeInOutCubic` (¼ ↦ 1/16, not 37/64 or 175/256). -/
theorem c7GalaxyToGlobeNotEaseOut :
    (calculateGalaxyToGlobe [c7Particle] c7Start (1 / 4) 0).get "particle-b" ≠
      (specGalaxyToGlobeEaseOut 3 [c7Particle] c7Start (1 / 4) 0).get "particle-b" ∧
    (calculateGalaxyToGlobe [c7Particle] c7Start (1 / 4) 0).get "particle-b" ≠
      (specGalaxyToGlobeEaseOut 4 [c7Particle] c7Start (1 / 4) 0).get "particle-b" := by
  have hE : calculateGlobePosition c7Particle 0 GLOBE_CONFIG = (0, 4, 0) := by
    simp only [calculateGlobePosition, latLongToSphere, GLOBE_CONFIG, c7Particle,
      Option.getD_some]
    norm_num [Real.sin_zero, Real.cos_zero]
  have hid : c7Particle.id = "particle-b" := rfl
  have hstart : c7Start.get "particle-b" = some (0, 0, 0) := by
    simp [c7Start, JsMap.get_set]
  have hglobe : (calculateGlobeFormation [c7Particle] 0 GLOBE_CONFIG).get "particle-b" =
      some (0, 4, 0) := by
    unfold calculateGlobeFormation
    show (JsMap.empty.set c7Particle.id
      (calculateGlobePosition c7Particle 0 GLOBE_CONFIG)).get "particle-b" = _
    rw [hE, hid, JsMap.get_set, if_pos rfl]
  have key : ∀ eased : ℝ,
      (galaxyToGlobeAux c7Start (calculateGlobeFormation [c7Particle] 0 GLOBE_CONFIG)
        (1 / 4) eased JsMap.empty [c7Particle]).get "particle-b" =
        some (lerpR 0 0 eased, lerpR 0 4 eased + Real.sin ((1 / 4 : ℝ) * π) * 2,
          lerpR 0 0 eased) := by
    intro eased
    simp only [galaxyToGlobeAux, hid, hstart, hglobe]
    simp [JsMap.get_set]
  have he : easeInOutCubic (1 / 4 : ℝ) = 1 / 16 := by
    unfold easeInOutCubic
    rw [if_pos (by norm_num)]
    norm_num
  constructor
  · simp only [calculateGalaxyToGlobe, specGalaxyToGlobeEaseOut]
    rw [key (easeInOutCubic (1 / 4)), key (1 - (1 - (1 / 4 : ℝ)) ^ (3 : ℕ))]
    intro h
    have h2 := (Prod.ext_iff.mp (Prod.ext_iff.mp (Option.some_inj.mp h)).2).1
    rw [he] at h2
    unfold lerpR at h2
    have h3 : (1 - (1 - (1 / 4 : ℝ)) ^ (3 : ℕ)) = 37 / 64 := by norm_num
    rw [h3] at h2
    norm_num at h2
  · simp only [calculateGalaxyToGlobe, specGalaxyToGlobeEaseOut]
    rw [key (easeInOutCubic (1 / 4)), key (1 - (1 - (1 / 4 : ℝ)) ^ (4 : ℕ))]
    intro h
    have h2 := (Prod.ext_iff.mp (Prod.ext_iff.mp (Option.some_inj.mp h)).2).1
    rw [he] at h2
    unfold lerpR at h2
    have h3 : (1 - (1 - (1 / 4 : ℝ)) ^ (4 : ℕ)) = 175 / 256 := by norm_num
    rw [h3] at h2
    norm_num at h2

/-- C7 amended: the explosion→galaxy transition applies the cubic
ease-out `1-(1-t)³` and the globe→nebula transition applies the quartic
ease-out `1-(1-t)⁴` to progress before interpolating, but the
galaxy→globe transition applies an ease-in-out cubic (`4t³` below ½,
`1-(-2t+2)³/2` above), which is not of the ease-out form (it differs
from both at t = ¼). -/
theorem c7TransitionEasing :
    (∀ t : ℝ, easeOutCubic t = 1 - (1 - t) ^ (3 : ℕ)) ∧
    (∀ t : ℝ, easeOutQuart t = 1 - (1 - t) ^ (4 : ℕ)) ∧
    (∀ (ps : List Particle) (progress time : ℝ) (c : Vec3),
      calculateExplosionToGalaxy ps progress time c =
        explosionToGalaxyAux (calculateGalaxyFormation ps time) progress
          (1 - (1 - progress) ^ (3 : ℕ)) c JsMap.empty ps) ∧
    (∀ (r : ℕ → ℝ) (ps : List Particle) (startM : JsMap) (progress : ℝ)
      (sel : Option GeographicRegion) (time : ℝ),
      calculateGlobeToNebula r ps startM progress sel time =
        globeToNebulaAux r startM
          (calculateNebulaFormation
            (match sel with
             | some rg => ps.filter (fun p => decide (p.region = rg))
             | none => ps)
            { NEBULA_CONFIG with center := getRegionNebulaCenter sel } time)
          progress (1 - (1 - progress) ^ (4 : ℕ)) 0 JsMap.empty
          (match sel with
           | some rg => ps.filter (fun p => decide (p.region = rg))
           | none => ps)) ∧
    (∀ (ps : List Particle) (startM : JsMap) (progress time : ℝ),
      calculateGalaxyToGlobe ps startM progress time =
        galaxyToGlobeAux startM (calculateGlobeFormation ps time GLOBE_CONFIG) progress
          (if progress < 0.5 then 4 * progress * progress * progress
           else 1 - (-2 * progress + 2) ^ (3 : ℕ) / 2) JsMap.empty ps) ∧
    easeInOutCubic (1 / 4) ≠ 1 - (1 - (1 / 4 : ℝ)) ^ (3 : ℕ) ∧
    easeInOutCubic (1 / 4) ≠ 1 - (1 - (1 / 4 : ℝ)) ^ (4 : ℕ) := by
  refine ⟨fun t => rfl, fun t => rfl, fun ps progress time c => rfl,
    fun r ps startM progress sel time => rfl, fun ps startM progress time => rfl, ?_, ?_⟩
  · unfold easeInOutCubic
    rw [if_pos (by norm_num)]
    norm_num
  · unfold easeInOutCubic
    rw [if_pos (by norm_num)]
    norm_num

end PortfolioViz
